import Mathlib

set_option autoImplicit false

/-!
Shallow embedding of the Clarifia backend (src/server.js): a single Express
endpoint POST /analyze guarded by an app-key middleware, which validates the
request body, builds a fixed payload, calls the OpenAI responses API once,
extracts a raw text string from the upstream response, parses it as JSON and
relays the result or a structured error.

Modelling choices:
- JavaScript strings on the request-body path are modelled as `List Char`
  (so trimming and length checks are structural); fixed literals and
  upstream-derived strings are Lean `String`s.
- The dynamically typed body field `req.body?.text` is a `JsVal` with
  JavaScript truthiness; calling `.trim()` on a truthy non-string throws,
  modelled by `Except`.
- The upstream `fetch` and the host runtime `JSON.parse` are environment
  functions, passed to the handler as oracle parameters (`UpstreamResult`,
  `parseJson`).
- Machine-level details (rate limiting middleware, CORS, the HTTP listener)
  carry no claim and are out of the model.
-/

namespace Clarifia

/-- A JavaScript value, as far as the handler inspects one: the possible
shapes of `req.body?.text`. Strings carry their characters. -/
inductive JsVal where
  | undef
  | nullVal
  | boolVal (b : Bool)
  | numVal (n : Int)
  | strVal (s : List Char)
  | objVal
  deriving DecidableEq

/-- JavaScript truthiness of a `JsVal` (`undefined`, `null`, `false`, `0`
and the empty string are falsy). -/
def JsVal.truthy : JsVal → Bool
  | .undef => false
  | .nullVal => false
  | .boolVal b => b
  | .numVal n => n != 0
  | .strVal s => !s.isEmpty
  | .objVal => true

/-- Whether a `JsVal` is a string. -/
def JsVal.isStr : JsVal → Bool
  | .strVal _ => true
  | _ => false

/-- JavaScript `String.prototype.trim`: drop whitespace from both ends. -/
def jsTrim (s : List Char) : List Char :=
  ((s.dropWhile Char.isWhitespace).reverse.dropWhile Char.isWhitespace).reverse

/-- JavaScript truthiness of an optional string-valued field (absent, or a
string which is falsy exactly when empty). Used for `process.env` values and
for `data.output_text`. -/
def jsStrTruthy : Option String → Bool
  | some s => !s.isEmpty
  | none => false

/-- The configuration read from the environment at startup:
`OPENAI_API_KEY` and `APP_KEY` (= `CLARIFIA_APP_KEY`). `none` models an
unset variable. -/
structure Config where
  OPENAI_API_KEY : Option String
  APP_KEY : Option String
  deriving DecidableEq

/-- An inbound /analyze request: the `X-APP-KEY` header (absent or a string)
and the body field `req.body?.text` (any JavaScript value). -/
structure Req where
  xAppKey : Option String
  bodyText : JsVal
  deriving DecidableEq

/-- The rejection condition of the `requireAppKey` middleware:
`!APP_KEY || key !== APP_KEY`. -/
def requireAppKeyRejects (cfg : Config) (key : Option String) : Bool :=
  !jsStrTruthy cfg.APP_KEY || key != cfg.APP_KEY

/-- One content block of the upstream structured output: a `type` tag and an
optional `text` payload. -/
structure ContentBlock where
  type : String
  text : Option String
  deriving DecidableEq

/-- One item of the upstream `output` list, with its optional `content`
block list. -/
structure OutputItem where
  content : Option (List ContentBlock)
  deriving DecidableEq

/-- The upstream response body, as far as the handler reads it:
`output_text` (absent or a string) and `output` (`some` models an array,
`none` models absent or any non-array value, the `Array.isArray` test). -/
structure UpstreamData where
  output_text : Option String
  output : Option (List OutputItem)
  deriving DecidableEq

/-- Output extraction from the upstream response (src/server.js lines
115-123): `data.output_text || (Array.isArray(data.output) ? data.output
.flatMap(o => o.content || []).filter(c => c.type === "output_text" ||
c.type === "text").map(c => c.text || "").join("\n") : "")`. -/
def extractRaw (d : UpstreamData) : String :=
  if jsStrTruthy d.output_text then d.output_text.getD ""
  else
    match d.output with
    | some items =>
        String.intercalate "\n"
          (((items.flatMap fun o => o.content.getD []).filter fun c =>
              c.type == "output_text" || c.type == "text").map fun c =>
            c.text.getD "")
    | none => ""

/-- The fixed French instruction prompt (src/server.js lines 68-87), after
the `.trim()` applied to the template literal. -/
def instructions : String :=
  "Tu es Clarifia, assistant administratif français.\nTu réponds UNIQUEMENT en JSON valide, sans markdown, sans texte autour.\n\nSchéma JSON EXACT :\n\x7b\n  \"summary\": \"résumé en 2-4 lignes\",\n  \"what_it_means\": \"ce que l\x27organisme attend (clair)\",\n  \"deadlines\": [\x7b\"label\":\"...\", \"date\":\"YYYY-MM-DD ou null\", \"notes\":\"...\"\x7d],\n  \"steps\": [\x7b\"title\":\"...\", \"details\":\"...\"\x7d],\n  \"missing_info\": [\"...\"],\n  \"risks\": [\"...\"],\n  \"official_sites\": [\x7b\"name\":\"...\", \"url\":\"...\"\x7d]\n\x7d\n\nRègles:\n- Si date incertaine: date = null, explique dans notes.\n- Français simple, actionnable.\n- Ne pas inventer de liens: si doute, mettre service-public.fr."

/-- The upstream request payload (src/server.js lines 89-94). -/
structure Payload where
  model : String
  instructions : String
  input : List Char
  max_output_tokens : Nat
  deriving DecidableEq

/-- Build the payload from the validated text. -/
def mkPayload (text : List Char) : Payload :=
  { model := "gpt-4o-mini", instructions := instructions, input := text,
    max_output_tokens := 900 }

/-- The possible outcomes of the single upstream `fetch` call plus
`r.text()` / `r.json()`: the promise rejects (transport error), the
response is not ok (its error body text), the ok-response body fails to
parse as JSON in `r.json()`, or an ok JSON body `d`. The strings in the
throw cases stand for `String(e)` of the thrown value. -/
inductive UpstreamResult where
  | fetchThrow (e : String)
  | notOk (errText : String)
  | jsonThrow (e : String)
  | ok (d : UpstreamData)
  deriving DecidableEq

/-- A response body sent by the handler: one of the structured error shapes
or the parsed JSON value relayed on success. -/
inductive RespBody (J : Type) where
  | errorOnly (error : String)
  | errorDetails (error : String) (details : String)
  | errorRaw (error : String) (raw : String)
  | parsed (value : J)
  deriving DecidableEq

/-- An HTTP response: status code and JSON body. -/
structure Response (J : Type) where
  status : Nat
  body : RespBody J
  deriving DecidableEq

/-- The result of one handler run: the response sent, and the upstream
request payload if (exactly) one upstream call was made. -/
structure Outcome (J : Type) where
  response : Response J
  requestSent : Option Payload
  deriving DecidableEq

/-- Model of `String(e)` for the `TypeError` thrown by
`(req.body?.text || "").trim()` when the field is a truthy non-string. -/
def trimTypeError : String := "TypeError: text.trim is not a function"

/-- `(req.body?.text || "").trim()` — the truthy field value, or the empty
string when falsy, trimmed; throws when the truthy value is not a string. -/
def getText (v : JsVal) : Except String (List Char) :=
  match (if v.truthy then v else .strVal []) with
  | .strVal s => .ok (jsTrim s)
  | _ => .error trimTypeError

/-- Body of the empty-text 400 error. -/
def requiredMsg : String := "Le champ \x27text\x27 est requis."

/-- Body of the oversized-text 400 error. -/
def tooLongMsg : String := "Texte trop long (max ~12 000 caractères pour le MVP)."

/-- Body of the missing-credential 500 error. -/
def misconfiguredMsg : String := "Server misconfigured (missing OPENAI_API_KEY)"

/-- The /analyze endpoint (src/server.js lines 50-139), middleware
included: auth check, try block with the validation sequence, the single
upstream call, output extraction, JSON parsing, and the catch-all that
turns any thrown error into a 500 with details. `parseJson` is the host
runtime `JSON.parse`, returning `none` when it would throw. -/
def analyze {J : Type} (cfg : Config) (parseJson : String → Option J)
    (up : UpstreamResult) (req : Req) : Outcome J :=
  if requireAppKeyRejects cfg req.xAppKey then
    ⟨⟨401, .errorOnly "Unauthorized"⟩, none⟩
  else
    match getText req.bodyText with
    | .error e => ⟨⟨500, .errorDetails "Server error" e⟩, none⟩
    | .ok text =>
      if text.isEmpty then
        ⟨⟨400, .errorOnly requiredMsg⟩, none⟩
      else if text.length > 12000 then
        ⟨⟨400, .errorOnly tooLongMsg⟩, none⟩
      else if !jsStrTruthy cfg.OPENAI_API_KEY then
        ⟨⟨500, .errorOnly misconfiguredMsg⟩, none⟩
      else
        let payload := mkPayload text
        match up with
        | .fetchThrow e =>
            ⟨⟨500, .errorDetails "Server error" e⟩, some payload⟩
        | .notOk errText =>
            ⟨⟨502, .errorDetails "OpenAI request failed" errText⟩, some payload⟩
        | .jsonThrow e =>
            ⟨⟨500, .errorDetails "Server error" e⟩, some payload⟩
        | .ok d =>
            let raw := extractRaw d
            match parseJson raw with
            | none =>
                ⟨⟨500, .errorRaw "AI did not return valid JSON. Adjust prompt."
                    (raw.take 2000)⟩, some payload⟩
            | some j => ⟨⟨200, .parsed j⟩, some payload⟩

/-! ### Spec-side model of output extraction

A second extraction function, written from the spec wording of §4
("Output extraction"), amended to prefer the direct output-text field only
when it is non-empty. It is compared with `extractRaw` (the code-side
definition) in the C1 theorem. -/

/-- Modelled from the spec: the texts of the blocks whose kind marks them
as textual, each block contributing its text (empty when missing). -/
def blockTexts : List ContentBlock → List String
  | [] => []
  | b :: rest =>
    if b.type = "output_text" ∨ b.type = "text" then
      b.text.getD "" :: blockTexts rest
    else
      blockTexts rest

/-- Modelled from the spec: flatten all content blocks across all output
items, in order, collecting the textual block texts. -/
def collectTexts : List OutputItem → List String
  | [] => []
  | o :: rest => blockTexts (o.content.getD []) ++ collectTexts rest

/-- Modelled from the spec: the newline-join of the collected texts of the
structured output list, or the empty string when no output list is
present. -/
def specFromOutput (d : UpstreamData) : String :=
  match d.output with
  | some items => String.intercalate "\n" (collectTexts items)
  | none => ""

/-- Modelled from the spec (amended): prefer the direct output-text field
when it is present and non-empty; otherwise fall back to the structured
output list. -/
def specExtract (d : UpstreamData) : String :=
  match d.output_text with
  | some s => if s = "" then specFromOutput d else s
  | none => specFromOutput d

/-! ### Concrete fixtures used by witnesses and counterexamples -/

/-- A configuration with both secrets set. -/
def cfgW : Config := { OPENAI_API_KEY := some "sk", APP_KEY := some "ak" }

/-- A parse oracle that accepts every string (as the unit JSON value). -/
def parseAnyW : String → Option Unit := fun _ => some ()

/-- A parse oracle that rejects every string. -/
def parseNoneW : String → Option Unit := fun _ => none

/-- An ok upstream response carrying a direct output text. -/
def upOkW : UpstreamResult := .ok { output_text := some "x", output := none }

/-- An upstream response with an empty direct output-text field and one
textual content block: the counterexample datum for C1. -/
def cexData : UpstreamData :=
  { output_text := some ""
    output := some [{ content := some [{ type := "text", text := some "hi" }] }] }

/-- A request text of untrimmed length 12001 whose trimmed form has length
12000: twelve thousand letters followed by one space. -/
def sLong : List Char := List.replicate 12000 'a' ++ [' ']

/-- The error field of a response body, when it has one. -/
def RespBody.errorField {J : Type} : RespBody J → Option String
  | .errorOnly e => some e
  | .errorDetails e _ => some e
  | .errorRaw e _ => some e
  | .parsed _ => none

/-- Whether a response body carries a diagnostic field (`details` or
`raw`). -/
def RespBody.hasDiag {J : Type} : RespBody J → Bool
  | .errorDetails _ _ => true
  | .errorRaw _ _ => true
  | _ => false

/-- The error-body discipline of §7: every non-200 response carries an
`error` field, and 400/401 responses carry no diagnostic field. -/
def wellFormed {J : Type} (r : Response J) : Bool :=
  (decide (r.status = 200) || r.body.errorField.isSome) &&
  (!(decide (r.status = 400) || decide (r.status = 401)) || !r.body.hasDiag)

/-! ### Helper lemmas -/

theorem getText_strVal (s : List Char) : getText (.strVal s) = .ok (jsTrim s) := by
  cases s with
  | nil => rfl
  | cons c cs => rfl

theorem rejects_eq_false {cfg : Config} {key : Option String}
    (hk : jsStrTruthy cfg.APP_KEY = true) (hkey : key = cfg.APP_KEY) :
    requireAppKeyRejects cfg key = false := by
  simp [requireAppKeyRejects, hk, hkey]

theorem blockTexts_eq_filterMap (bs : List ContentBlock) :
    ((bs.filter fun c => c.type == "output_text" || c.type == "text").map
      fun c => c.text.getD "") = blockTexts bs := by
  induction bs with
  | nil => rfl
  | cons b rest ih =>
    by_cases h1 : b.type = "output_text"
    · simp [List.filter_cons, blockTexts, h1, ih]
    · by_cases h2 : b.type = "text"
      · simp [List.filter_cons, blockTexts, h1, h2, ih]
      · simp [List.filter_cons, blockTexts, h1, h2, ih]

theorem collectTexts_eq_filterMap (items : List OutputItem) :
    (((items.flatMap fun o => o.content.getD []).filter fun c =>
        c.type == "output_text" || c.type == "text").map fun c =>
      c.text.getD "") = collectTexts items := by
  induction items with
  | nil => rfl
  | cons o rest ih =>
    rw [List.flatMap_cons, List.filter_append, List.map_append, ih,
      blockTexts_eq_filterMap]
    rfl

/-! ### Claim C1 -/

/-- C1 (amended): output extraction prefers the direct output-text field
when it is present and non-empty (JavaScript truthiness); otherwise it
scans the structured output list, flattens all content blocks across all
output items in order, keeps the blocks whose kind is textual, extracts
each text and joins with newlines; with no output list the raw string is
empty. The code-side `extractRaw` coincides with the spec-side
`specExtract` on every upstream response. -/
theorem C1_extract_matches_spec (d : UpstreamData) : extractRaw d = specExtract d := by
  obtain ⟨ot, out⟩ := d
  cases ot with
  | none =>
    cases out with
    | none => rfl
    | some items =>
      simp [extractRaw, specExtract, specFromOutput, jsStrTruthy,
        collectTexts_eq_filterMap]
  | some s =>
    by_cases hs : s = ""
    · subst hs
      cases out with
      | none => rfl
      | some items =>
        have h0 : ("" : String).isEmpty = true := rfl
        simp [extractRaw, specExtract, specFromOutput, jsStrTruthy, h0,
          collectTexts_eq_filterMap]
    · have hne : s.isEmpty = false := by
        rw [Bool.eq_false_iff]
        intro h
        exact hs ((String.isEmpty_iff s).mp h)
      simp [extractRaw, specExtract, specFromOutput, jsStrTruthy, hne, hs]

/-- C1 counterexample to the claim as stated: the upstream response
`cexData` provides a direct output-text field (the empty string), yet the
extracted raw string is not that field value — the code falls through to
the block scan because the empty string is falsy. -/
theorem C1_counterexample :
    cexData.output_text = some "" ∧ extractRaw cexData ≠ "" :=
  ⟨rfl, by decide⟩

/-! ### Trimming lemmas for concrete inputs -/

theorem dropWhile_replicate_a (n : Nat) :
    (List.replicate n 'a').dropWhile Char.isWhitespace = List.replicate n 'a' := by
  have ha : Char.isWhitespace 'a' = false := by decide
  cases n with
  | zero => rfl
  | succ m => rw [List.replicate_succ, List.dropWhile_cons, ha, if_neg Bool.false_ne_true]

theorem jsTrim_replicate_a (n : Nat) :
    jsTrim (List.replicate n 'a') = List.replicate n 'a' := by
  unfold jsTrim
  rw [dropWhile_replicate_a, List.reverse_replicate, dropWhile_replicate_a,
    List.reverse_replicate]

theorem jsTrim_sLong : jsTrim sLong = List.replicate 12000 'a' := by
  have ha : Char.isWhitespace 'a' = false := by decide
  have hs : Char.isWhitespace ' ' = true := by decide
  have d1 : (sLong.dropWhile Char.isWhitespace) = sLong := by
    unfold sLong
    rw [show (12000 : Nat) = 11999 + 1 from rfl, List.replicate_succ,
      List.cons_append, List.dropWhile_cons, ha, if_neg Bool.false_ne_true]
  unfold jsTrim
  rw [d1]
  unfold sLong
  rw [List.reverse_append, List.reverse_singleton, List.singleton_append,
    List.dropWhile_cons, hs, if_pos rfl]
  rw [List.reverse_replicate, dropWhile_replicate_a, List.reverse_replicate]

/-! ### Claim C5 -/

/-- C5: whenever the X-APP-KEY header is absent, or the configured app
secret is missing (falsy), or the header differs from the secret, the
handler answers 401 with body error "Unauthorized" and makes no upstream
call, regardless of the request body. -/
theorem C5_unauthorized {J : Type} (cfg : Config) (parseJson : String → Option J)
    (up : UpstreamResult) (req : Req)
    (h : req.xAppKey = none ∨ jsStrTruthy cfg.APP_KEY = false ∨
      req.xAppKey ≠ cfg.APP_KEY) :
    analyze cfg parseJson up req = ⟨⟨401, .errorOnly "Unauthorized"⟩, none⟩ := by
  have hr : requireAppKeyRejects cfg req.xAppKey = true := by
    by_cases ht : jsStrTruthy cfg.APP_KEY = true
    · have hne : req.xAppKey ≠ cfg.APP_KEY := by
        rcases h with h | h | h
        · cases hA : cfg.APP_KEY with
          | none => rw [hA] at ht; simp [jsStrTruthy] at ht
          | some a => simp [h, hA]
        · simp [ht] at h
        · exact h
      simp [requireAppKeyRejects, bne_iff_ne, hne]
    · have ht' : jsStrTruthy cfg.APP_KEY = false := by
        cases hv : jsStrTruthy cfg.APP_KEY
        · rfl
        · exact absurd hv ht
      simp [requireAppKeyRejects, ht']
  simp [analyze, hr]

/-- C5 witness: a request with no X-APP-KEY header against a configured
secret is rejected with 401. -/
theorem C5_witness :
    analyze cfgW parseAnyW upOkW { xAppKey := none, bodyText := .objVal } =
      ⟨⟨401, .errorOnly "Unauthorized"⟩, none⟩ :=
  C5_unauthorized cfgW parseAnyW upOkW
    { xAppKey := none, bodyText := .objVal } (Or.inl rfl)

/-! ### Claim C6 -/

/-- C6: with a correct app key and a string body text that is empty after
trimming, the handler answers 400 with the French required-field message
and makes no upstream call. -/
theorem C6_empty_text {J : Type} (cfg : Config) (parseJson : String → Option J)
    (up : UpstreamResult) (req : Req) (s : List Char)
    (hk : jsStrTruthy cfg.APP_KEY = true) (hkey : req.xAppKey = cfg.APP_KEY)
    (hbody : req.bodyText = .strVal s) (hempty : jsTrim s = []) :
    analyze cfg parseJson up req = ⟨⟨400, .errorOnly requiredMsg⟩, none⟩ := by
  simp [analyze, rejects_eq_false hk hkey, hbody, getText_strVal, hempty]

/-- C6 witness: a whitespace-only text with the correct key yields the 400
required-field error and no upstream call. -/
theorem C6_witness :
    analyze cfgW parseAnyW upOkW { xAppKey := some "ak", bodyText := .strVal [' '] } =
      ⟨⟨400, .errorOnly requiredMsg⟩, none⟩ :=
  C6_empty_text cfgW parseAnyW upOkW
    { xAppKey := some "ak", bodyText := .strVal [' '] } [' ']
    (by decide) rfl rfl (by decide)

/-! ### Claim C10 -/

/-- C10: with a correct app key and a truthy non-string body text, the
handler does not reach the 400 required-field branch: the `.trim()` call
throws, the catch-all converts it, and the response is 500 with error
"Server error" and the string representation of the exception in
`details`; no upstream call is made. -/
theorem C10_nonstring_text {J : Type} (cfg : Config) (parseJson : String → Option J)
    (up : UpstreamResult) (req : Req)
    (hk : jsStrTruthy cfg.APP_KEY = true) (hkey : req.xAppKey = cfg.APP_KEY)
    (htruthy : req.bodyText.truthy = true) (hstr : req.bodyText.isStr = false) :
    analyze cfg parseJson up req =
      ⟨⟨500, .errorDetails "Server error" trimTypeError⟩, none⟩ := by
  have hget : getText req.bodyText = .error trimTypeError := by
    cases hb : req.bodyText <;>
      simp_all [getText, JsVal.truthy, JsVal.isStr]
  simp [analyze, rejects_eq_false hk hkey, hget]

/-- C10 witness: a numeric body text with the correct key yields the 500
Server-error response carrying the TypeError text. -/
theorem C10_witness :
    analyze cfgW parseAnyW upOkW { xAppKey := some "ak", bodyText := .numVal 5 } =
      ⟨⟨500, .errorDetails "Server error" trimTypeError⟩, none⟩ :=
  C10_nonstring_text cfgW parseAnyW upOkW
    { xAppKey := some "ak", bodyText := .numVal 5 }
    (by decide) rfl (by decide) rfl

/-! ### The validated path -/

/-- After a correct app key, a string body text that is non-empty and at
most 12000 characters after trimming, and a configured upstream
credential, the handler builds the payload from the trimmed text, makes
the single upstream call, and branches on its result. -/
theorem analyze_validated {J : Type} (cfg : Config) (parseJson : String → Option J)
    (up : UpstreamResult) (req : Req) (s : List Char)
    (hk : jsStrTruthy cfg.APP_KEY = true) (hkey : req.xAppKey = cfg.APP_KEY)
    (hbody : req.bodyText = .strVal s) (hne : jsTrim s ≠ [])
    (hlen : (jsTrim s).length ≤ 12000)
    (hok : jsStrTruthy cfg.OPENAI_API_KEY = true) :
    analyze cfg parseJson up req =
      match up with
      | .fetchThrow e =>
          ⟨⟨500, .errorDetails "Server error" e⟩, some (mkPayload (jsTrim s))⟩
      | .notOk errText =>
          ⟨⟨502, .errorDetails "OpenAI request failed" errText⟩,
            some (mkPayload (jsTrim s))⟩
      | .jsonThrow e =>
          ⟨⟨500, .errorDetails "Server error" e⟩, some (mkPayload (jsTrim s))⟩
      | .ok d =>
          match parseJson (extractRaw d) with
          | none =>
              ⟨⟨500, .errorRaw "AI did not return valid JSON. Adjust prompt."
                  ((extractRaw d).take 2000)⟩, some (mkPayload (jsTrim s))⟩
          | some j => ⟨⟨200, .parsed j⟩, some (mkPayload (jsTrim s))⟩ := by
  have hie : (jsTrim s).isEmpty = false := by
    rw [Bool.eq_false_iff]
    intro h
    exact hne (List.isEmpty_iff.mp h)
  have hgt : ¬ (jsTrim s).length > 12000 := by omega
  simp [analyze, rejects_eq_false hk hkey, hbody, getText_strVal, hie, hgt, hok]

/-! ### Claim C7 -/

/-- C7: when the validated request reaches the upstream call and the
upstream answers a non-success status, the handler responds 502 with
error "OpenAI request failed" and the raw upstream error text in
`details`; exactly one upstream request was sent (no retry). -/
theorem C7_upstream_failure {J : Type} (cfg : Config) (parseJson : String → Option J)
    (req : Req) (s : List Char) (errText : String)
    (hk : jsStrTruthy cfg.APP_KEY = true) (hkey : req.xAppKey = cfg.APP_KEY)
    (hbody : req.bodyText = .strVal s) (hne : jsTrim s ≠ [])
    (hlen : (jsTrim s).length ≤ 12000)
    (hok : jsStrTruthy cfg.OPENAI_API_KEY = true) :
    analyze cfg parseJson (.notOk errText) req =
      ⟨⟨502, .errorDetails "OpenAI request failed" errText⟩,
        some (mkPayload (jsTrim s))⟩ := by
  rw [analyze_validated cfg parseJson (.notOk errText) req s hk hkey hbody hne hlen hok]

/-- C7 witness: a simulated upstream failure body "rate limited" surfaces
as 502 with that text in `details`. -/
theorem C7_witness :
    analyze cfgW parseAnyW (.notOk "rate limited")
        { xAppKey := some "ak", bodyText := .strVal ['t'] } =
      ⟨⟨502, .errorDetails "OpenAI request failed" "rate limited"⟩,
        some (mkPayload (jsTrim ['t']))⟩ :=
  C7_upstream_failure cfgW parseAnyW
    { xAppKey := some "ak", bodyText := .strVal ['t'] } ['t'] "rate limited"
    (by decide) rfl rfl (by decide) (by decide) (by decide)

/-! ### Claim C3 -/

/-- C3: when the validated request reaches the upstream call, the upstream
succeeds, and the extracted raw text does not parse as JSON, the handler
responds 500 with error "AI did not return valid JSON. Adjust prompt." and
the first at most 2000 characters of the raw text in `raw`; the parse
failure is caught, never rethrown. -/
theorem C3_invalid_json {J : Type} (cfg : Config) (parseJson : String → Option J)
    (req : Req) (s : List Char) (d : UpstreamData)
    (hk : jsStrTruthy cfg.APP_KEY = true) (hkey : req.xAppKey = cfg.APP_KEY)
    (hbody : req.bodyText = .strVal s) (hne : jsTrim s ≠ [])
    (hlen : (jsTrim s).length ≤ 12000)
    (hok : jsStrTruthy cfg.OPENAI_API_KEY = true)
    (hparse : parseJson (extractRaw d) = none) :
    analyze cfg parseJson (.ok d) req =
      ⟨⟨500, .errorRaw "AI did not return valid JSON. Adjust prompt."
          ((extractRaw d).take 2000)⟩, some (mkPayload (jsTrim s))⟩ := by
  rw [analyze_validated cfg parseJson (.ok d) req s hk hkey hbody hne hlen hok]
  simp [hparse]

/-- C3 witness: an upstream reply "not json" with a rejecting parse oracle
yields the 500 invalid-JSON response echoing the raw text. -/
theorem C3_witness :
    analyze cfgW parseNoneW (.ok { output_text := some "not json", output := none })
        { xAppKey := some "ak", bodyText := .strVal ['t'] } =
      ⟨⟨500, .errorRaw "AI did not return valid JSON. Adjust prompt."
          ((extractRaw { output_text := some "not json", output := none }).take 2000)⟩,
        some (mkPayload (jsTrim ['t']))⟩ :=
  C3_invalid_json cfgW parseNoneW
    { xAppKey := some "ak", bodyText := .strVal ['t'] } ['t']
    { output_text := some "not json", output := none }
    (by decide) rfl rfl (by decide) (by decide) (by decide) rfl

/-! ### Claim C4 -/

/-- C4: when the validated request reaches the upstream call, the upstream
succeeds, and the extracted raw text parses as JSON value `j`, the handler
responds 200 with exactly `j` as the body — for any parsed value, with no
schema validation applied. -/
theorem C4_success {J : Type} (cfg : Config) (parseJson : String → Option J)
    (req : Req) (s : List Char) (d : UpstreamData) (j : J)
    (hk : jsStrTruthy cfg.APP_KEY = true) (hkey : req.xAppKey = cfg.APP_KEY)
    (hbody : req.bodyText = .strVal s) (hne : jsTrim s ≠ [])
    (hlen : (jsTrim s).length ≤ 12000)
    (hok : jsStrTruthy cfg.OPENAI_API_KEY = true)
    (hparse : parseJson (extractRaw d) = some j) :
    analyze cfg parseJson (.ok d) req =
      ⟨⟨200, .parsed j⟩, some (mkPayload (jsTrim s))⟩ := by
  rw [analyze_validated cfg parseJson (.ok d) req s hk hkey hbody hne hlen hok]
  simp [hparse]

/-- C4 witness: an upstream reply accepted by the parse oracle is relayed
as a 200 with the parsed value as the body. -/
theorem C4_witness :
    analyze cfgW parseAnyW (.ok { output_text := some "x", output := none })
        { xAppKey := some "ak", bodyText := .strVal ['t'] } =
      ⟨⟨200, .parsed ()⟩, some (mkPayload (jsTrim ['t']))⟩ :=
  C4_success cfgW parseAnyW
    { xAppKey := some "ak", bodyText := .strVal ['t'] } ['t']
    { output_text := some "x", output := none } ()
    (by decide) rfl rfl (by decide) (by decide) (by decide) rfl

/-! ### Claim C9 -/

/-- C9: the 12000-character limit is checked on the trimmed text, and it is
the trimmed text that is forwarded upstream as the payload input: whenever
the trimmed text is non-empty and at most 12000 characters, the upstream
request is sent with input equal to the trimmed text, whatever the length
of the original string. -/
theorem C9_trimmed_forwarded {J : Type} (cfg : Config) (parseJson : String → Option J)
    (up : UpstreamResult) (req : Req) (s : List Char)
    (hk : jsStrTruthy cfg.APP_KEY = true) (hkey : req.xAppKey = cfg.APP_KEY)
    (hbody : req.bodyText = .strVal s) (hne : jsTrim s ≠ [])
    (hlen : (jsTrim s).length ≤ 12000)
    (hok : jsStrTruthy cfg.OPENAI_API_KEY = true) :
    (analyze cfg parseJson up req).requestSent = some (mkPayload (jsTrim s)) := by
  rw [analyze_validated cfg parseJson up req s hk hkey hbody hne hlen hok]
  cases up with
  | fetchThrow e => rfl
  | notOk errText => rfl
  | jsonThrow e => rfl
  | ok d => cases hp : parseJson (extractRaw d) <;> simp [hp]

/-- C9 witness: a text of untrimmed length 12001 whose trimmed form has
length 12000 passes the length check and its trimmed form is forwarded as
the payload input. -/
theorem C9_witness :
    (analyze cfgW parseAnyW upOkW
        { xAppKey := some "ak", bodyText := .strVal sLong }).requestSent =
      some (mkPayload (jsTrim sLong)) :=
  C9_trimmed_forwarded cfgW parseAnyW upOkW
    { xAppKey := some "ak", bodyText := .strVal sLong } sLong
    (by decide) rfl rfl
    (by
      rw [jsTrim_sLong]
      intro h
      have hl := congrArg List.length h
      rw [List.length_replicate, List.length_nil] at hl
      omega)
    (by rw [jsTrim_sLong, List.length_replicate])
    (by decide)

/-! ### Claim C2 -/

theorem isEmpty_false_of_ne_nil {l : List Char} (h : l ≠ []) : l.isEmpty = false := by
  rw [Bool.eq_false_iff]
  intro he
  exact h (List.isEmpty_iff.mp he)

/-- C2 (amended): the 12000-character cap applies to the trimmed text. For
every authenticated request whose text is, after trimming, 12001 or more
characters long, the response is 400 with the length-cap message; for a
trimmed text of exactly 12000 characters the length check passes (the
response is never the length-cap 400). -/
theorem C2_length_check :
    (∀ (J : Type) (cfg : Config) (parseJson : String → Option J)
      (up : UpstreamResult) (req : Req) (s : List Char),
      jsStrTruthy cfg.APP_KEY = true → req.xAppKey = cfg.APP_KEY →
      req.bodyText = .strVal s → 12000 < (jsTrim s).length →
      (analyze cfg parseJson up req).response = ⟨400, .errorOnly tooLongMsg⟩) ∧
    (∀ (J : Type) (cfg : Config) (parseJson : String → Option J)
      (up : UpstreamResult) (req : Req) (s : List Char),
      jsStrTruthy cfg.APP_KEY = true → req.xAppKey = cfg.APP_KEY →
      req.bodyText = .strVal s → (jsTrim s).length = 12000 →
      (analyze cfg parseJson up req).response ≠ ⟨400, .errorOnly tooLongMsg⟩) := by
  constructor
  · intro J cfg parseJson up req s hk hkey hbody hlong
    have hne : jsTrim s ≠ [] := by
      intro h
      rw [h, List.length_nil] at hlong
      omega
    have hie := isEmpty_false_of_ne_nil hne
    simp [analyze, rejects_eq_false hk hkey, hbody, getText_strVal, hie, hlong]
  · intro J cfg parseJson up req s hk hkey hbody hlen12
    have hne : jsTrim s ≠ [] := by
      intro h
      rw [h, List.length_nil] at hlen12
      omega
    have hlen : (jsTrim s).length ≤ 12000 := by omega
    by_cases ho : jsStrTruthy cfg.OPENAI_API_KEY = true
    · rw [analyze_validated cfg parseJson up req s hk hkey hbody hne hlen ho]
      cases up with
      | fetchThrow e => simp
      | notOk errText => simp
      | jsonThrow e => simp
      | ok d => cases hp : parseJson (extractRaw d) <;> simp [hp]
    · have ho' : jsStrTruthy cfg.OPENAI_API_KEY = false := by
        cases hv : jsStrTruthy cfg.OPENAI_API_KEY
        · rfl
        · exact absurd hv ho
      have hie := isEmpty_false_of_ne_nil hne
      have hgt : ¬ (jsTrim s).length > 12000 := by omega
      simp [analyze, rejects_eq_false hk hkey, hbody, getText_strVal, hie, hgt, ho']

/-- C2 witness for the amended claim: a trimmed text of 12001 characters is
rejected with the length-cap 400; a trimmed text of exactly 12000
characters is not. -/
theorem C2_witness :
    (analyze cfgW parseAnyW upOkW
        { xAppKey := some "ak",
          bodyText := .strVal (List.replicate 12001 'a') }).response =
      ⟨400, .errorOnly tooLongMsg⟩ ∧
    (analyze cfgW parseAnyW upOkW
        { xAppKey := some "ak",
          bodyText := .strVal (List.replicate 12000 'a') }).response ≠
      ⟨400, .errorOnly tooLongMsg⟩ :=
  ⟨C2_length_check.1 Unit cfgW parseAnyW upOkW
      { xAppKey := some "ak", bodyText := .strVal (List.replicate 12001 'a') }
      (List.replicate 12001 'a') (by decide) rfl rfl
      (by rw [jsTrim_replicate_a, List.length_replicate]; omega),
    C2_length_check.2 Unit cfgW parseAnyW upOkW
      { xAppKey := some "ak", bodyText := .strVal (List.replicate 12000 'a') }
      (List.replicate 12000 'a') (by decide) rfl rfl
      (by rw [jsTrim_replicate_a, List.length_replicate])⟩

/-- C2 counterexample to the claim as stated: an authenticated request
whose text field is 12001 characters long (12000 letters and a trailing
space) is not rejected by the length check — the check runs on the trimmed
text, and with a well-behaved upstream the response is 200. -/
theorem C2_counterexample :
    sLong.length = 12001 ∧
    (analyze cfgW parseAnyW upOkW
        { xAppKey := some "ak", bodyText := .strVal sLong }).response =
      ⟨200, .parsed ()⟩ := by
  have hne : jsTrim sLong ≠ [] := by
    rw [jsTrim_sLong]
    intro h
    have hl := congrArg List.length h
    rw [List.length_replicate, List.length_nil] at hl
    omega
  have hlen : (jsTrim sLong).length ≤ 12000 := by
    rw [jsTrim_sLong, List.length_replicate]
  constructor
  · unfold sLong
    rw [List.length_append, List.length_replicate]
    rfl
  · rw [analyze_validated cfgW parseAnyW upOkW
      { xAppKey := some "ak", bodyText := .strVal sLong } sLong
      (by decide) rfl rfl hne hlen (by decide)]
    rfl

/-! ### Claim C8 -/

/-- C8: every run of the handler produces a structured response: any
non-200 response body carries an `error` field, and the 400 and 401 bodies
never carry the diagnostic fields `details` or `raw`. Nothing escapes the
handler uncaught — `analyze` is total and each thrown error lands in a
response branch. -/
theorem C8_all_caught {J : Type} (cfg : Config) (parseJson : String → Option J)
    (up : UpstreamResult) (req : Req) :
    wellFormed (analyze cfg parseJson up req).response = true := by
  unfold analyze
  repeat' split
  all_goals try rfl
  all_goals
    rename_i d
  all_goals
    cases hp : parseJson (extractRaw d) <;>
      simp [hp, wellFormed, RespBody.errorField, RespBody.hasDiag]

end Clarifia
